import Mathlib

/-!
Verification of the server-selection engine of a Go reverse-proxy load
balancer (`src/main.go`): a shallow embedding of `NewLoadBalancer`,
`simpleServer.IsAlive`, `LoadBalancer.getNextAvailableServer` and
`LoadBalancer.serveProxy`, with proofs about the round-robin selection loop.

The Go source of the selection loop is:

  func (lb *LoadBalancer) getNextAvailableServer() Server {
      server := lb.servers[lb.roundRobinCount%len(lb.servers)]
      for !server.IsAlive() {
          lb.roundRobinCount++
          server = lb.servers[lb.roundRobinCount%len(lb.servers)]
      }
      lb.roundRobinCount--
      return server
  }

`roundRobinCount` is a Go `int`; `%` is Go's truncated-division remainder
(sign of the dividend), and a negative slice index is a runtime panic.
The `IsAlive` probes are external HTTP I/O, modelled by an oracle giving the
outcome of each successive probe of an invocation.
-/

namespace LB

/-- Go's `%` on `int` operands (truncated division, remainder takes the sign
of the dividend), as in `lb.roundRobinCount % len(lb.servers)`.  `Int.tmod`
is exactly this operation.  Go panics on `x % 0`; here the subsequent index
check fails on the empty list, yielding the same panic outcome. -/
def goMod (a : Int) (n : Nat) : Int := Int.tmod a n

/-- Go slice indexing `xs[i]` with an `int` index: defined iff
`0 ≤ i < len(xs)`; `none` models the runtime "index out of range" panic. -/
def goIndex (xs : List α) (i : Int) : Option α :=
  if h : 0 ≤ i ∧ i.toNat < xs.length then some (xs.get ⟨i.toNat, h.2⟩) else none

/-- Outcome of one invocation of `getNextAvailableServer`:
* `found s c k` — the call returned server `s`, left `roundRobinCount = c`
  (after the final `lb.roundRobinCount--`), and issued `k` `IsAlive` probes;
* `spin c` — the iteration budget (`fuel`) ran out with the loop still
  running and the cursor at `c`;
* `panic` — a slice access faulted at runtime (index out of range, or the
  modulo on an empty server list). -/
inductive ScanResult (α : Type) where
  | found : α → Int → Nat → ScanResult α
  | spin : Int → ScanResult α
  | panic : ScanResult α
deriving DecidableEq, Repr

/-- The selection loop of `getNextAvailableServer`, unrolled for at most
`fuel` iterations.  `t` counts the `IsAlive` probes already issued in this
invocation (the oracle `probe t` is the outcome of probe number `t`) and `c`
is the current `lb.roundRobinCount`.  Each iteration fetches
`lb.servers[c % len]`, probes it, and on a dead probe executes
`lb.roundRobinCount++` and retries; on a live probe the call executes the
final `lb.roundRobinCount--` and returns. -/
def scan (servers : List α) (probe : Nat → Bool) :
    Nat → Nat → Int → ScanResult α
  | 0, _, c => .spin c
  | fuel + 1, t, c =>
    match goIndex servers (goMod c servers.length) with
    | none => .panic
    | some s =>
      if probe t then .found s (c - 1) (t + 1)
      else scan servers probe fuel (t + 1) (c + 1)

/-- `getNextAvailableServer`, called with `lb.roundRobinCount = c`; the probe
counter starts at 0. -/
def getNextAvailableServer (servers : List α) (probe : Nat → Bool)
    (fuel : Nat) (c : Int) : ScanResult α :=
  scan servers probe fuel 0 c

/-- Probe oracle for a fixed per-backend liveness table: during a call that
starts at cursor `c`, probe number `t` targets `servers[(c + t) % n]`, so its
outcome is the table entry at that index.  This models a run in which each
backend's liveness is stable for the duration of the call. -/
def tableProbe (alive : List Bool) (c : Int) : Nat → Bool :=
  fun t => (goIndex alive (goMod (c + t) alive.length)).getD false

/-- The `LoadBalancer` struct of the source: listening port, round-robin
cursor, and the backend list. -/
structure LoadBalancer (α : Type) where
  port : String
  roundRobinCount : Int
  servers : List α

/-- `NewLoadBalancer`: builds the struct with `roundRobinCount: 0` and the
arguments stored as given.  The source performs no validation and cannot
fail; in particular an empty `servers` slice is accepted. -/
def NewLoadBalancer (port : String) (servers : List α) : LoadBalancer α :=
  { port := port, roundRobinCount := 0, servers := servers }

/-- The two fields of Go's `net/http` `Response` relevant to the health
check.  `status` is a STRING (e.g. `"200 OK"`); `statusCode` is the numeric
code.  The source's `IsAlive` writes `resp.Status >= 400`, comparing the
string field with an integer constant — mismatched types, which Go rejects
at compile time; the field the comparison needs is `StatusCode`. -/
structure Response where
  status : String
  statusCode : Nat
deriving DecidableEq, Repr

/-- `simpleServer.IsAlive` with the comparison read on `resp.StatusCode`,
the field its own test (`TestSimpleServerIsAlive`) and the health-check
comment intend; the probe result is `none` on a transport error, else
`some resp`.  As written the source compares the string `resp.Status` with
`400` and does not compile (see `Response`). -/
def isAliveIntended (probeResult : Option Response) : Bool :=
  match probeResult with
  | none => false
  | some resp => if resp.statusCode ≥ 400 then false else true

/-- `serveProxy`, called with `lb.roundRobinCount = c`: selects a server via
`getNextAvailableServer`, then evaluates `targetServer.IsAlive()` once more
as the argument of the log `fmt.Printf` (issuing a second probe request), and
finally calls `targetServer.Serve(rw, req)` once.  The result records the
chosen server, the final cursor, the total number of `IsAlive` probes issued
during the inbound call, and the number of forwarding requests; `none` when
selection panicked or the budget ran out. -/
def serveProxy (servers : List α) (probe : Nat → Bool) (fuel : Nat)
    (c : Int) : Option (α × Int × Nat × Nat) :=
  match getNextAvailableServer servers probe fuel c with
  | .found s c' k => some (s, c', k + 1, 1)
  | _ => none

/-- A nonnegative cursor over a nonempty server list always indexes within
bounds: the fetch of `servers[m % len]` succeeds. -/
lemma goIndex_natCursor_isSome (servers : List α) (h : servers ≠ [])
    (m : Nat) :
    ∃ s, goIndex servers (goMod (↑m) servers.length) = some s := by
  have hlen : 0 < servers.length := List.length_pos.mpr h
  have hle : (0 : Int) ≤ ↑(m % servers.length) := Int.ofNat_nonneg _
  have hlt : ((↑(m % servers.length) : Int)).toNat < servers.length := by
    simpa using Nat.mod_lt m hlen
  have hmod : goMod (↑m) servers.length = ↑(m % servers.length) := rfl
  exact ⟨_, by rw [hmod]; unfold goIndex; rw [dif_pos ⟨hle, hlt⟩]⟩

/-- With every probe returning false the loop never exits: `fuel` iterations
from a nonnegative cursor `m` leave the scan still running, the cursor
advanced to `m + fuel`. -/
lemma scan_allFalse_spin (servers : List α) (h : servers ≠ []) :
    ∀ (fuel t m : Nat),
      scan servers (fun _ => false) fuel t (↑m) = .spin (↑m + ↑fuel)
  | 0, t, m => by simp [scan]
  | fuel + 1, t, m => by
    obtain ⟨s, hs⟩ := goIndex_natCursor_isSome servers h m
    have hstep : scan servers (fun _ => false) (fuel + 1) t (↑m)
        = scan servers (fun _ => false) fuel (t + 1) ((↑m : Int) + 1) := by
      rw [scan, hs]
      simp
    have hcast : ((↑m : Int) + 1) = ((↑(m + 1) : Int)) := by push_cast; ring
    rw [hstep, hcast, scan_allFalse_spin servers h fuel (t + 1) (m + 1)]
    congr 1
    push_cast
    ring

/-- If the scan running with probe counter `t` and cursor `c` returns, then
the successful probe was number `k - 1` (with `k` the total probe count, so
`t < k`) and the final cursor, after the trailing `lb.roundRobinCount--`, is
`c + (k - t) - 2`. -/
lemma scan_found_cursor (servers : List α) (probe : Nat → Bool) :
    ∀ (fuel t : Nat) (c c' : Int) (s : α) (k : Nat),
      scan servers probe fuel t c = .found s c' k →
      t < k ∧ c' = c + ↑k - ↑t - 2
  | 0, t, c, c', s, k => by simp [scan]
  | fuel + 1, t, c, c', s, k => by
    intro hscan
    rw [scan] at hscan
    split at hscan
    · cases hscan
    · split at hscan
      · cases hscan
        exact ⟨by omega, by omega⟩
      · obtain ⟨h1, h2⟩ :=
          scan_found_cursor servers probe fuel (t + 1) (c + 1) c' s k hscan
        exact ⟨by omega, by push_cast at h2 ⊢; omega⟩

/-- C7: with backends `[down, up]` and a fresh balancer (cursor 0), one call
to `getNextAvailableServer` skips the dead first backend and returns the
second, alive one (after 2 probes, leaving the cursor at 0). -/
theorem downUp_firstCall_returns_up :
    getNextAvailableServer ["down", "up"] (tableProbe [false, true] 0) 2 0
      = .found "up" 0 2 := by
  decide

/-- C1: the round-robin property fails on the code.  With two backends, both
alive, the first call from a fresh balancer returns backend 0 and executes
`lb.roundRobinCount--`, leaving the cursor at -1; the second of the N = 2
consecutive calls then evaluates `lb.servers[-1 % 2] = lb.servers[-1]`, an
out-of-range index (runtime panic), instead of returning backend 1. -/
theorem secondCall_allAlive_panics :
    getNextAvailableServer [0, 1] (tableProbe [true, true] 0) 2 0
        = .found 0 (-1) 1 ∧
      getNextAvailableServer [0, 1] (tableProbe [true, true] (-1)) 2 (-1)
        = .panic := by
  decide

/-- C2: the cursor is not monotonically non-decreasing.  A call whose first
probe succeeds ends with `lb.roundRobinCount--`: from a fresh balancer with
one alive backend the cursor goes from 0 to -1, a strict decrease. -/
theorem cursor_decreases_after_immediate_success :
    getNextAvailableServer [9] (tableProbe [true] 0) 1 0
        = .found 9 (-1) 1 ∧
      (-1 : Int) < 0 := by
  decide

/-- C3: fails on the code.  With two backends, both alive (so "at least one
alive" holds), the cursor value -1 is reachable by one prior call from a
fresh balancer; the call from that state faults on the negative slice index
`-1 % 2 = -1` instead of terminating with an alive backend. -/
theorem aliveExists_reachable_cursor_panics :
    getNextAvailableServer [10, 20] (tableProbe [true, true] 0) 5 0
        = .found 10 (-1) 1 ∧
      getNextAvailableServer [10, 20] (tableProbe [true, true] (-1)) 5 (-1)
        = .panic := by
  decide

/-- C4: fails on the code when the single alive backend is at position 0 of
a list of N = 2.  The first call returns it and leaves the cursor at -1; the
second call panics on the negative slice index instead of returning the
alive backend again. -/
theorem singleAliveAtHead_secondCall_panics :
    getNextAvailableServer [7, 8] (tableProbe [true, false] 0) 3 0
        = .found 7 (-1) 1 ∧
      getNextAvailableServer [7, 8] (tableProbe [true, false] (-1)) 3 (-1)
        = .panic := by
  decide

/-- C5: the intended health check (probe completes without transport error
and the numeric status code is below 400) returns true exactly on
`some resp` with `resp.statusCode < 400`; a transport error (`none`) yields
false.  The source itself compares the string field `resp.Status` with the
integer 400 and is rejected by the Go compiler, so the claim's iff holds of
the intent, not of the code as written. -/
theorem isAliveIntended_true_iff (r : Option Response) :
    isAliveIntended r = true ↔
      ∃ resp, r = some resp ∧ resp.statusCode < 400 := by
  cases r with
  | none => simp [isAliveIntended]
  | some resp =>
    simp only [isAliveIntended, Option.some.injEq]
    constructor
    · intro h
      refine ⟨resp, rfl, ?_⟩
      by_contra hge
      simp [Nat.le_of_not_lt hge] at h
    · rintro ⟨resp', rfl, hlt⟩
      simp [Nat.not_le.mpr hlt]

/-- C8: fails on the code.  With a single backend whose first probe is
alive, `serveProxy` issues 2 `IsAlive` probe requests — one inside
`getNextAvailableServer` and a second as the argument of the log
`fmt.Printf` — plus 1 forwarding request, not exactly one probe. -/
theorem serveProxy_probe_count_two :
    serveProxy [5] (tableProbe [true] 0) 1 0 = some (5, -1, 2, 1) ∧
      (2 : Nat) ≠ 1 := by
  decide

/-- C6: if every probe returns false (all backends simultaneously down, at
every re-probe), `getNextAvailableServer` never returns: from any
nonnegative cursor (a fresh balancer starts at 0, and with all probes dead
no call ever completes, so the cursor never goes negative), after any number
`fuel` of loop iterations the scan is still running and has advanced the
cursor by exactly `fuel`, each iteration re-probing `servers[cursor % n]` in
circular configured order — no bound, no circuit breaker. -/
theorem allDown_never_returns (servers : List α) (h : servers ≠ [])
    (c : Int) (hc : 0 ≤ c) (fuel : Nat) :
    getNextAvailableServer servers (fun _ => false) fuel c
      = .spin (c + ↑fuel) := by
  obtain ⟨m, rfl⟩ := Int.eq_ofNat_of_zero_le hc
  exact scan_allFalse_spin servers h fuel 0 m

/-- C6 witness: three all-dead probes on a two-backend list from a fresh
cursor leave the scan still spinning, at cursor 3. -/
theorem allDown_never_returns_witness :
    getNextAvailableServer [0, 1] (fun _ => false) 3 0
      = ScanResult.spin (0 + ((3 : Nat) : Int)) :=
  allDown_never_returns [0, 1] (by decide) 0 (by decide) 3

/-- C9: whenever `getNextAvailableServer` returns having issued `k` probes
(`k - 1` dead backends scanned, then one alive), the final cursor is the
initial cursor plus `k - 1` minus 1; in particular a call whose very first
probe is alive (`k = 1`) decreases the cursor by one, so from a freshly
constructed balancer (cursor 0) it leaves the cursor at -1. -/
theorem cursor_after_found (servers : List α) (probe : Nat → Bool)
    (fuel : Nat) (c c' : Int) (s : α) (k : Nat)
    (h : getNextAvailableServer servers probe fuel c = .found s c' k) :
    1 ≤ k ∧ c' = c + (↑k - 1) - 1 ∧ (k = 1 → c' = c - 1) := by
  obtain ⟨h1, h2⟩ := scan_found_cursor servers probe fuel 0 c c' s k h
  refine ⟨by omega, by push_cast at h2 ⊢; omega, ?_⟩
  intro hk
  subst hk
  omega

/-- C9 witness: one backend, first probe alive, fresh cursor 0: the call
returns after exactly 1 probe and the cursor becomes -1. -/
theorem cursor_after_found_witness :
    (1 : Nat) ≤ 1 ∧ (-1 : Int) = 0 + (((1 : Nat) : Int) - 1) - 1 ∧
      ((1 : Nat) = 1 → (-1 : Int) = 0 - 1) :=
  cursor_after_found [42] (fun _ => true) 1 0 (-1) 42 1 (by decide)

/-- C10: `NewLoadBalancer` is total and performs no validation: for every
port string and every server list (the empty list included) it returns the
struct with `roundRobinCount = 0` and the port and servers stored
unchanged. -/
theorem newLoadBalancer_no_validation (port : String) (servers : List α) :
    (NewLoadBalancer port servers).port = port ∧
      (NewLoadBalancer port servers).roundRobinCount = 0 ∧
      (NewLoadBalancer port servers).servers = servers :=
  ⟨rfl, rfl, rfl⟩

end LB
